import Mathlib

/-!
Shallow embedding of the credit scoring / loan eligibility engine of the
`credit` Django app (src/credit/views.py, src/credit/serializers.py,
src/credit/models.py).

Modelling conventions:
* Python `Decimal` values are modelled as exact rationals (`ℚ`).  The code's
  explicit `quantize(Decimal("0.01"))` (banker's rounding to 2 decimal
  places) is modelled by `quantize2`.  Decimal's 28-significant-digit
  context rounding on intermediate divisions is modelled as exact rational
  arithmetic; at the granularity of the claims (2-decimal quantisation and
  integer truncation of values that are never context-rounding-close to a
  boundary for bounded monetary inputs) the two agree.
* Dates are day numbers (`ℤ`); the calendar-year extraction used by the
  recency sub-score (`start_date__year`) is an explicit parameter
  `yearOf : ℤ → ℤ`, so the engine is a pure function of `(yearOf, today,
  customer, loans, request)`.
* Database rows are list elements; the Django queryset operations used by
  the views (`filter`, `order_by(...).first()`, `get`) become list
  `filter` / fold / `find?`.
* Python `int()` truncation of a clamped-nonnegative Decimal is `Int.floor`.
* Division by zero (which raises in Python) is Lean's total `/` returning 0;
  every claim constrains the inputs so that this difference is not exercised
  (`tenure ≥ 1` on the paths that divide by tenure).
-/

/-- Row of the `Customer` model (src/credit/models.py lines 4-15); the
string-valued columns play no role in the engine and are omitted. -/
structure Customer where
  customer_id : ℕ
  monthly_salary : ℚ
  approved_limit : ℚ
  current_debt : ℚ
deriving DecidableEq

/-- Row of the `Loan` model (src/credit/models.py lines 18-30); the foreign
key to `Customer` is kept as the owning customer's external id. -/
structure Loan where
  loan_id : ℕ
  customer_id : ℕ
  loan_amount : ℚ
  tenure : ℕ
  interest_rate : ℚ
  monthly_repayment : ℚ
  emis_paid_on_time : ℕ
  start_date : ℤ
  end_date : ℤ
deriving DecidableEq

/-- `loans.filter(end_date__gte=today)` (views.py line 67). -/
def active_loans (today : ℤ) (loans : List Loan) : List Loan :=
  loans.filter (fun l => today ≤ l.end_date)

/-- `total_active_amount` (views.py line 68). -/
def total_active_amount (today : ℤ) (loans : List Loan) : ℚ :=
  ((active_loans today loans).map (fun l => l.loan_amount)).sum

/-- `total_active_emi` (views.py line 69). -/
def total_active_emi (today : ℤ) (loans : List Loan) : ℚ :=
  ((active_loans today loans).map (fun l => l.monthly_repayment)).sum

/-- The list `ratios` built in views.py lines 78-81: for each loan whose
tenure is non-zero, `min(emis_paid_on_time / tenure, 1)`. -/
def paid_ratios (loans : List Loan) : List ℚ :=
  (loans.filter (fun l => l.tenure ≠ 0)).map
    (fun l => min ((l.emis_paid_on_time : ℚ) / (l.tenure : ℚ)) 1)

/-- `avg_paid_ratio` (views.py lines 76-82): 1 when the customer has no
loans, else the mean of `paid_ratios`, defaulting to 1 when that list is
empty.  (Renamed from the source's `avg_paid_ratio`.) -/
def avg_paid_share (loans : List Loan) : ℚ :=
  if loans = [] then 1
  else if paid_ratios loans = [] then 1
  else (paid_ratios loans).sum / ((paid_ratios loans).length : ℚ)

/-- `paid_score` (views.py line 84). -/
def paid_score (loans : List Loan) : ℚ := avg_paid_share loans * 30

/-- `loan_count_score` (views.py line 85). -/
def loan_count_score (loans : List Loan) : ℚ :=
  ((min loans.length 5 : ℕ) : ℚ) / 5 * 20

/-- `recent = loans.filter(start_date__year=today.year).count()`
(views.py line 87). -/
def recent_count (yearOf : ℤ → ℤ) (today : ℤ) (loans : List Loan) : ℕ :=
  (loans.filter (fun l => yearOf l.start_date = yearOf today)).length

/-- `recent_score` (views.py line 88). -/
def recent_score (yearOf : ℤ → ℤ) (today : ℤ) (loans : List Loan) : ℚ :=
  max 0 (20 - ((max 0 ((recent_count yearOf today loans : ℤ) - 1) : ℤ) : ℚ) * 5)

/-- `total_amount` (views.py line 75). -/
def total_amount (loans : List Loan) : ℚ :=
  (loans.map (fun l => l.loan_amount)).sum

/-- `volume_ratio` (views.py line 90): `total_amount / approved_limit` when
the limit is non-zero (Python truthiness of a Decimal), else 1.  (Renamed
from the source's `volume_ratio`.) -/
def volume_share (customer : Customer) (loans : List Loan) : ℚ :=
  if customer.approved_limit ≠ 0 then total_amount loans / customer.approved_limit
  else 1

/-- `volume_score` (views.py line 91). -/
def volume_score (customer : Customer) (loans : List Loan) : ℚ :=
  max 0 (20 * (1 - min (volume_share customer loans) 1))

/-- `base_score` (views.py line 93). -/
def base_score : ℚ := 10

/-- The pre-clamp sum `score` of views.py line 95. -/
def credit_score_core (yearOf : ℤ → ℤ) (today : ℤ) (customer : Customer)
    (loans : List Loan) : ℚ :=
  paid_score loans + loan_count_score loans +
    recent_score yearOf today loans + volume_score customer loans + base_score

/-- `_compute_credit_score` (views.py lines 65-97): returns
`(score, total_active_amount, total_active_emi)`.  The hard gate of lines
71-72 returns score 0 before the sub-scores; otherwise the sub-score sum is
clamped to `[0, 100]` and truncated with `int(...)` (= floor, the clamped
value being nonnegative). -/
def compute_credit_score (yearOf : ℤ → ℤ) (today : ℤ) (customer : Customer)
    (loans : List Loan) : ℤ × ℚ × ℚ :=
  if total_active_amount today loans > customer.approved_limit then
    (0, total_active_amount today loans, total_active_emi today loans)
  else
    (⌊max 0 (min 100 (credit_score_core yearOf today customer loans))⌋,
     total_active_amount today loans, total_active_emi today loans)

/-- Round a rational to the nearest integer, ties to even — the
`ROUND_HALF_EVEN` default of Python `Decimal.quantize`. -/
def roundHalfEven (q : ℚ) : ℤ :=
  let f := ⌊q⌋
  if q - (f : ℚ) < 1 / 2 then f
  else if 1 / 2 < q - (f : ℚ) then f + 1
  else if f % 2 = 0 then f else f + 1

/-- `x.quantize(Decimal("0.01"))`: round to 2 decimal places, half to even. -/
def quantize2 (q : ℚ) : ℚ := ((roundHalfEven (q * 100) : ℤ) : ℚ) / 100

/-- `_compute_emi` (views.py lines 55-62). -/
def compute_emi (principal annual_rate : ℚ) (tenure_months : ℕ) : ℚ :=
  let r := annual_rate / 100 / 12
  if r = 0 then quantize2 (principal / (tenure_months : ℚ))
  else
    quantize2 (principal * r * (1 + r) ^ tenure_months /
      ((1 + r) ^ tenure_months - 1))

/-- The decision dictionary returned by `evaluate_loan_request`
(views.py lines 146-195); the approved dictionary carries no `reason` key,
modelled as `reason = none`. -/
structure Decision where
  approval : Bool
  requested_rate : ℚ
  corrected_rate : Option ℚ
  tenure : ℕ
  monthly_installment : Option ℚ
  reason : Option String
deriving DecidableEq

/-- Continuation of `evaluate_loan_request` after a rate floor `min_rate`
has been selected (views.py lines 175-195): correct the rate upward, compute
the installment, and apply the 50%-of-salary affordability check. -/
def rate_step (customer : Customer) (active_emi loan_amount requested_rate : ℚ)
    (tenure : ℕ) (min_rate : ℚ) : Decision :=
  let corrected_rate := max requested_rate min_rate
  let monthly_installment := compute_emi loan_amount corrected_rate tenure
  let total_emi := active_emi + monthly_installment
  if total_emi > customer.monthly_salary * (1 / 2) then
    { approval := false, requested_rate := requested_rate,
      corrected_rate := some corrected_rate, tenure := tenure,
      monthly_installment := some monthly_installment,
      reason := some "emi exceeds 50% of monthly salary" }
  else
    { approval := true, requested_rate := requested_rate,
      corrected_rate := some corrected_rate, tenure := tenure,
      monthly_installment := some monthly_installment, reason := none }

/-- `evaluate_loan_request` (views.py lines 146-195). -/
def evaluate_loan_request (yearOf : ℤ → ℤ) (today : ℤ) (customer : Customer)
    (loans : List Loan) (loan_amount requested_rate : ℚ) (tenure : ℕ) : Decision :=
  let score := (compute_credit_score yearOf today customer loans).1
  let active_emi := (compute_credit_score yearOf today customer loans).2.2
  if score = 0 then
    { approval := false, requested_rate := requested_rate, corrected_rate := none,
      tenure := tenure, monthly_installment := none,
      reason := some "credit score zero (active loans exceed limit)" }
  else if 50 < score then
    rate_step customer active_emi loan_amount requested_rate tenure requested_rate
  else if 30 < score then
    rate_step customer active_emi loan_amount requested_rate tenure 12
  else if 10 < score then
    rate_step customer active_emi loan_amount requested_rate tenure 16
  else
    { approval := false, requested_rate := requested_rate, corrected_rate := none,
      tenure := tenure, monthly_installment := none,
      reason := some "credit score too low" }

/-- Body of the `/check-eligibility` response (views.py lines 119-143).
The rejection branch reports `corrected_interest_rate` and
`monthly_installment` through Python truthiness tests
(`float(x) if x else None`), modelled by `truthyQ`. -/
structure EligibilityResponse where
  customer_id : ℕ
  approval : Bool
  interest_rate : ℚ
  corrected_interest_rate : Option ℚ
  tenure : ℕ
  monthly_installment : Option ℚ
  reason : Option String
deriving DecidableEq

/-- `float(x) if x else None` for an optional Decimal `x`: both `None` and
the Decimal zero are falsy and render as `None`. -/
def truthyQ : Option ℚ → Option ℚ
  | none => none
  | some q => if q = 0 then none else some q

/-- `CheckEligibilityView.post` (views.py lines 100-143) after the customer
has been found and validation has passed. -/
def check_eligibility_response (yearOf : ℤ → ℤ) (today : ℤ) (customer : Customer)
    (loans : List Loan) (loan_amount requested_rate : ℚ) (tenure : ℕ) :
    EligibilityResponse :=
  let d := evaluate_loan_request yearOf today customer loans loan_amount
    requested_rate tenure
  if d.approval then
    { customer_id := customer.customer_id, approval := true,
      interest_rate := d.requested_rate,
      corrected_interest_rate := d.corrected_rate, tenure := d.tenure,
      monthly_installment := d.monthly_installment, reason := none }
  else
    { customer_id := customer.customer_id, approval := false,
      interest_rate := d.requested_rate,
      corrected_interest_rate := truthyQ d.corrected_rate, tenure := d.tenure,
      monthly_installment := truthyQ d.monthly_installment, reason := d.reason }

/-- Payload of `CheckEligibilityRequestSerializer`
(src/credit/serializers.py lines 20-24). -/
structure EligibilityRequest where
  customer_id : ℤ
  loan_amount : ℚ
  interest_rate : ℚ
  tenure : ℤ
deriving DecidableEq

/-- DRF `DecimalField(max_digits=m, decimal_places=p)` value validation: at
most `p` decimal places and fewer than `m - p` digits before the point. -/
def decimal_field_ok (max_digits decimal_places : ℕ) (q : ℚ) : Bool :=
  decide ((q * 10 ^ decimal_places).den = 1) &&
    decide (|q| < 10 ^ (max_digits - decimal_places))

/-- `CheckEligibilityRequestSerializer.is_valid` (serializers.py lines
20-24): `customer_id` and `tenure` are `IntegerField(min_value=1)`;
`loan_amount` and `interest_rate` are plain `DecimalField`s with no
`min_value`. -/
def check_eligibility_request_valid (r : EligibilityRequest) : Bool :=
  decide (1 ≤ r.customer_id) && decimal_field_ok 12 2 r.loan_amount &&
    decimal_field_ok 5 2 r.interest_rate && decide (1 ≤ r.tenure)

/-- Database state visible to the views: all customer rows and all loan
rows. -/
structure DB where
  customers : List Customer
  loans : List Loan
deriving DecidableEq

/-- `Customer.objects.get(customer_id=cid)` as a list lookup. -/
def find_customer (db : DB) (cid : ℕ) : Option Customer :=
  db.customers.find? (fun c => c.customer_id = cid)

/-- `Loan.objects.filter(customer=customer)` (views.py line 209). -/
def customer_loans (db : DB) (cid : ℕ) : List Loan :=
  db.loans.filter (fun l => l.customer_id = cid)

/-- `(Loan.objects.order_by("-loan_id").first().loan_id + 1) if
Loan.objects.exists() else 1` (views.py line 231). -/
def next_loan_id (loans : List Loan) : ℕ :=
  if loans = [] then 1 else (loans.map (fun l => l.loan_id)).foldr max 0 + 1

/-- Body of the `/create-loan` response (views.py lines 218-258). -/
structure CreateLoanResponse where
  loan_id : Option ℕ
  customer_id : ℕ
  loan_approved : Bool
  message : String
  monthly_installment : Option ℚ
deriving DecidableEq

/-- `CreateLoanView.post` (views.py lines 198-258) after validation: looks
the customer up, evaluates the request, and on approval performs the
transaction of lines 230-247 — allocate the next loan id, append the new
loan row (start today, end today + tenure × 30 days, zero EMIs paid, the
decision's corrected rate and installment) and add the loan amount to the
customer's `current_debt`.  Returns the response and the new database
state. -/
def create_loan (yearOf : ℤ → ℤ) (today : ℤ) (db : DB) (cid : ℕ)
    (loan_amount requested_rate : ℚ) (tenure : ℕ) : CreateLoanResponse × DB :=
  match find_customer db cid with
  | none =>
    ({ loan_id := none, customer_id := cid, loan_approved := false,
       message := "Customer not found.", monthly_installment := none }, db)
  | some customer =>
    let d := evaluate_loan_request yearOf today customer
      (customer_loans db customer.customer_id) loan_amount requested_rate tenure
    if d.approval then
      let next_id := next_loan_id db.loans
      let start_date := today
      let end_date := start_date + (tenure : ℤ) * 30
      let loan : Loan :=
        { loan_id := next_id, customer_id := customer.customer_id,
          loan_amount := loan_amount, tenure := tenure,
          interest_rate := d.corrected_rate.getD 0,
          monthly_repayment := d.monthly_installment.getD 0,
          emis_paid_on_time := 0, start_date := start_date, end_date := end_date }
      ({ loan_id := some next_id, customer_id := customer.customer_id,
         loan_approved := true, message := "Loan approved",
         monthly_installment := d.monthly_installment },
       { customers := db.customers.map (fun c =>
           if c.customer_id = customer.customer_id then
             { c with current_debt := c.current_debt + loan_amount }
           else c),
         loans := db.loans ++ [loan] })
    else
      ({ loan_id := none, customer_id := customer.customer_id,
         loan_approved := false, message := d.reason.getD "",
         monthly_installment := truthyQ d.monthly_installment }, db)

/-! ### Helper lemmas about the sub-scores -/

theorem paid_ratios_mem_nonneg (loans : List Loan) :
    ∀ x ∈ paid_ratios loans, 0 ≤ x := by
  intro x hx
  unfold paid_ratios at hx
  rcases List.mem_map.mp hx with ⟨l, _, rfl⟩
  exact le_min (by positivity) zero_le_one

theorem paid_ratios_mem_le_one (loans : List Loan) :
    ∀ x ∈ paid_ratios loans, x ≤ 1 := by
  intro x hx
  unfold paid_ratios at hx
  rcases List.mem_map.mp hx with ⟨l, _, rfl⟩
  exact min_le_right _ _

theorem avg_paid_share_nonneg (loans : List Loan) : 0 ≤ avg_paid_share loans := by
  unfold avg_paid_share
  split_ifs with h1 h2
  · norm_num
  · norm_num
  · exact div_nonneg (List.sum_nonneg (paid_ratios_mem_nonneg loans)) (by positivity)

theorem paid_score_nonneg (loans : List Loan) : 0 ≤ paid_score loans := by
  unfold paid_score
  have := avg_paid_share_nonneg loans
  linarith

theorem loan_count_score_nonneg (loans : List Loan) : 0 ≤ loan_count_score loans := by
  unfold loan_count_score
  positivity

theorem loan_count_score_ge_four (loans : List Loan) (h : loans ≠ []) :
    4 ≤ loan_count_score loans := by
  unfold loan_count_score
  have h1 : 1 ≤ min loans.length 5 := by
    have : 1 ≤ loans.length := List.length_pos.mpr h
    omega
  have h1q : (1 : ℚ) ≤ ((min loans.length 5 : ℕ) : ℚ) := by exact_mod_cast h1
  linarith

theorem recent_score_nonneg (yearOf : ℤ → ℤ) (today : ℤ) (loans : List Loan) :
    0 ≤ recent_score yearOf today loans :=
  le_max_left 0 _

theorem volume_score_nonneg (customer : Customer) (loans : List Loan) :
    0 ≤ volume_score customer loans :=
  le_max_left 0 _

theorem avg_paid_share_le_one (loans : List Loan) : avg_paid_share loans ≤ 1 := by
  unfold avg_paid_share
  split_ifs with h1 h2
  · norm_num
  · norm_num
  · have hlen : 0 < ((paid_ratios loans).length : ℚ) := by
      have : (paid_ratios loans).length ≠ 0 := fun hc => h2 (List.length_eq_zero.mp hc)
      positivity
    rw [div_le_one hlen]
    have := List.sum_le_card_nsmul (paid_ratios loans) 1 (paid_ratios_mem_le_one loans)
    simpa [nsmul_eq_mul] using this

/-- The pre-clamp sum is at least 14 on every input: with no loans the
repayment sub-score alone contributes 30, with at least one loan the
loan-count sub-score contributes at least 4, and the flat base is 10. -/
theorem credit_score_core_ge_14 (yearOf : ℤ → ℤ) (today : ℤ) (customer : Customer)
    (loans : List Loan) : 14 ≤ credit_score_core yearOf today customer loans := by
  unfold credit_score_core
  have hr := recent_score_nonneg yearOf today loans
  have hv := volume_score_nonneg customer loans
  have hb : base_score = 10 := rfl
  by_cases h : loans = []
  · subst h
    have hp : paid_score [] = 30 := by norm_num [paid_score, avg_paid_share]
    have hc : loan_count_score [] = 0 := by norm_num [loan_count_score]
    rw [hp, hc, hb]; linarith
  · have hp := paid_score_nonneg loans
    have hc := loan_count_score_ge_four loans h
    rw [hb]; linarith

/-! ### Helper lemmas about the clamped, truncated score -/

theorem floor_clamp_nonneg (x : ℚ) : 0 ≤ ⌊max 0 (min 100 x)⌋ :=
  Int.le_floor.mpr (by exact_mod_cast le_max_left 0 (min 100 x))

theorem floor_clamp_le_100 (x : ℚ) : ⌊max 0 (min 100 x)⌋ ≤ 100 := by
  have h : max 0 (min 100 x) ≤ 100 := max_le (by norm_num) (min_le_left _ _)
  calc ⌊max 0 (min 100 x)⌋ ≤ ⌊(100 : ℚ)⌋ := Int.floor_le_floor h
    _ = 100 := by norm_num

theorem le_floor_clamp (x : ℚ) (a : ℤ) (ha : (a : ℚ) ≤ x) (ha' : (a : ℚ) ≤ 100) :
    a ≤ ⌊max 0 (min 100 x)⌋ := by
  apply Int.le_floor.mpr
  exact le_trans (le_min ha' ha) (le_max_right 0 _)

/-- Score dichotomy: the engine returns either the hard-gate 0 or a score of
at least 14 (so in particular never a value in `(0, 10]`). -/
theorem score_zero_or_ge_14 (yearOf : ℤ → ℤ) (today : ℤ) (customer : Customer)
    (loans : List Loan) :
    (compute_credit_score yearOf today customer loans).1 = 0 ∨
      14 ≤ (compute_credit_score yearOf today customer loans).1 := by
  unfold compute_credit_score
  split_ifs with h
  · left; rfl
  · right
    exact le_floor_clamp _ 14 (by exact_mod_cast credit_score_core_ge_14 yearOf today customer loans) (by norm_num)

/-! ### Rounding error of the half-even quantisation -/

theorem abs_roundHalfEven_sub (q : ℚ) :
    |((roundHalfEven q : ℤ) : ℚ) - q| ≤ 1 / 2 := by
  have h0 : ((⌊q⌋ : ℤ) : ℚ) ≤ q := Int.floor_le q
  have h1 : q < ((⌊q⌋ : ℤ) : ℚ) + 1 := Int.lt_floor_add_one q
  simp only [roundHalfEven]
  split_ifs with ha hb hc
  · rw [abs_le]; constructor <;> linarith
  · rw [abs_le]; push_cast; constructor <;> linarith
  · rw [abs_le]; constructor <;> linarith
  · rw [abs_le]; push_cast; constructor <;> linarith

/-! ### Claim theorems -/

/-- Claim C1: if the total amount of active loans strictly exceeds the
customer's approved limit, the credit score is 0 (the hard gate of
views.py lines 71-72); when the active total only equals the limit the gate
does not fire and the score is strictly positive. -/
theorem hard_gate_forces_zero_score (yearOf : ℤ → ℤ) (today : ℤ)
    (customer : Customer) (loans : List Loan) :
    (total_active_amount today loans > customer.approved_limit →
      (compute_credit_score yearOf today customer loans).1 = 0) ∧
    (total_active_amount today loans = customer.approved_limit →
      0 < (compute_credit_score yearOf today customer loans).1) := by
  constructor
  · intro h
    simp [compute_credit_score, h]
  · intro h
    have hng : ¬ total_active_amount today loans > customer.approved_limit := by
      rw [h]; exact lt_irrefl _
    simp only [compute_credit_score, if_neg hng]
    have h14 := le_floor_clamp (credit_score_core yearOf today customer loans) 14
      (by exact_mod_cast credit_score_core_ge_14 yearOf today customer loans) (by norm_num)
    omega

/-- Witness for C1: a customer with limit 100 and a single active loan of
150 scores 0; with the loan amount shrunk to exactly the limit the score is
positive. -/
theorem hard_gate_forces_zero_score_witness :
    (compute_credit_score (fun d => d / 365) 0 ⟨1, 75000, 100, 0⟩
        [⟨1, 1, 150, 12, 10, 50, 0, -10, 400⟩]).1 = 0 ∧
    0 < (compute_credit_score (fun d => d / 365) 0 ⟨1, 75000, 100, 0⟩
        [⟨1, 1, 100, 12, 10, 50, 0, -10, 400⟩]).1 := by
  constructor
  · exact (hard_gate_forces_zero_score (fun d => d / 365) 0 ⟨1, 75000, 100, 0⟩
      [⟨1, 1, 150, 12, 10, 50, 0, -10, 400⟩]).1
      (by norm_num [total_active_amount, active_loans])
  · exact (hard_gate_forces_zero_score (fun d => d / 365) 0 ⟨1, 75000, 100, 0⟩
      [⟨1, 1, 100, 12, 10, 50, 0, -10, 400⟩]).2
      (by norm_num [total_active_amount, active_loans])

/-- Claim C5: the returned credit score is an integer in `[0, 100]`, and
whenever the hard gate does not fire it is exactly the floor (round-down)
of the clamp to `[0, 100]` of the four sub-scores plus the flat base of 10
(views.py lines 95-96). -/
theorem score_in_range_and_trunc_clamp (yearOf : ℤ → ℤ) (today : ℤ)
    (customer : Customer) (loans : List Loan) :
    (0 ≤ (compute_credit_score yearOf today customer loans).1 ∧
      (compute_credit_score yearOf today customer loans).1 ≤ 100) ∧
    (¬ total_active_amount today loans > customer.approved_limit →
      (compute_credit_score yearOf today customer loans).1 =
        ⌊max 0 (min 100 (credit_score_core yearOf today customer loans))⌋) := by
  refine ⟨?_, ?_⟩
  · unfold compute_credit_score
    split_ifs with h
    · simp
    · exact ⟨floor_clamp_nonneg _, floor_clamp_le_100 _⟩
  · intro h
    simp only [compute_credit_score, if_neg h]

/-- Witness for C5: for a fresh customer with no loans the gate does not
fire and the score equals the truncated clamp of the sub-score sum. -/
theorem score_in_range_and_trunc_clamp_witness :
    (compute_credit_score (fun d => d / 365) 0 ⟨1, 75000, 2700000, 0⟩ []).1 =
      ⌊max 0 (min 100 (credit_score_core (fun d => d / 365) 0
        ⟨1, 75000, 2700000, 0⟩ []))⌋ :=
  (score_in_range_and_trunc_clamp (fun d => d / 365) 0 ⟨1, 75000, 2700000, 0⟩ []).2
    (by norm_num [total_active_amount, active_loans])

/-- Claim C7: with a zero annual rate the amortization calculator returns
`principal / tenure` rounded (half-even) to 2 decimal places, and the
round-trip `installment × tenure` is within `tenure × 0.005` of the
principal. -/
theorem zero_rate_emi_roundtrip (p : ℚ) (n : ℕ) (hp : 0 < p) (hn : 1 ≤ n) :
    compute_emi p 0 n = quantize2 (p / (n : ℚ)) ∧
    |compute_emi p 0 n * (n : ℚ) - p| ≤ (n : ℚ) * (1 / 200) := by
  have he : compute_emi p 0 n = quantize2 (p / (n : ℚ)) := by
    simp [compute_emi]
  refine ⟨he, ?_⟩
  have hn0 : (0 : ℚ) < (n : ℚ) := by exact_mod_cast hn.trans_lt' Nat.zero_lt_one
  have key : quantize2 (p / (n : ℚ)) * (n : ℚ) - p =
      (((roundHalfEven (p / (n : ℚ) * 100) : ℤ) : ℚ) - p / (n : ℚ) * 100) *
        ((n : ℚ) / 100) := by
    unfold quantize2
    field_simp
    ring
  rw [he, key, abs_mul, abs_of_nonneg (by positivity : (0 : ℚ) ≤ (n : ℚ) / 100)]
  calc |((roundHalfEven (p / (n : ℚ) * 100) : ℤ) : ℚ) - p / (n : ℚ) * 100| * ((n : ℚ) / 100)
      ≤ (1 / 2) * ((n : ℚ) / 100) := by
        have := abs_roundHalfEven_sub (p / (n : ℚ) * 100)
        have hpos : (0 : ℚ) ≤ (n : ℚ) / 100 := by positivity
        exact mul_le_mul_of_nonneg_right this hpos
    _ = (n : ℚ) * (1 / 200) := by ring

/-- Witness for C7 at `principal = 100`, `tenure = 3`. -/
theorem zero_rate_emi_roundtrip_witness :
    compute_emi 100 0 3 = quantize2 ((100 : ℚ) / (3 : ℕ)) ∧
    |compute_emi 100 0 3 * ((3 : ℕ) : ℚ) - 100| ≤ ((3 : ℕ) : ℚ) * (1 / 200) :=
  zero_rate_emi_roundtrip 100 3 (by norm_num) (by norm_num)

/-- Claim C9: the score engine never reads `current_debt` — two customer
rows that agree on everything except `current_debt` produce, for the same
loan set, the same score and the same recomputed active-loan aggregates. -/
theorem score_independent_of_current_debt (yearOf : ℤ → ℤ) (today : ℤ)
    (c1 c2 : Customer) (loans : List Loan)
    (hid : c1.customer_id = c2.customer_id)
    (hsal : c1.monthly_salary = c2.monthly_salary)
    (hlim : c1.approved_limit = c2.approved_limit) :
    compute_credit_score yearOf today c1 loans =
      compute_credit_score yearOf today c2 loans := by
  unfold compute_credit_score credit_score_core volume_score volume_share
  rw [hlim]

/-- Witness for C9: two copies of a customer differing only in
`current_debt` (0 versus 77) score identically on a one-loan history. -/
theorem score_independent_of_current_debt_witness :
    compute_credit_score (fun d => d / 365) 0 ⟨1, 100, 100, 0⟩
        [⟨1, 1, 50, 12, 10, 5, 6, -10, 400⟩] =
      compute_credit_score (fun d => d / 365) 0 ⟨1, 100, 100, 77⟩
        [⟨1, 1, 50, 12, 10, 5, 6, -10, 400⟩] :=
  score_independent_of_current_debt (fun d => d / 365) 0 _ _ _ rfl rfl rfl

/-! ### Projections of the post-slab continuation -/

theorem rate_step_corrected_rate (c : Customer) (ae amt rate : ℚ) (ten : ℕ) (m : ℚ) :
    (rate_step c ae amt rate ten m).corrected_rate = some (max rate m) := by
  simp only [rate_step]
  split_ifs <;> rfl

theorem rate_step_installment (c : Customer) (ae amt rate : ℚ) (ten : ℕ) (m : ℚ) :
    (rate_step c ae amt rate ten m).monthly_installment =
      some (compute_emi amt (max rate m) ten) := by
  simp only [rate_step]
  split_ifs <;> rfl

theorem rate_step_reason_cases (c : Customer) (ae amt rate : ℚ) (ten : ℕ) (m : ℚ) :
    (rate_step c ae amt rate ten m).reason =
        some "emi exceeds 50% of monthly salary" ∨
      (rate_step c ae amt rate ten m).reason = none := by
  simp only [rate_step]
  split_ifs
  · exact Or.inl rfl
  · exact Or.inr rfl

/-- Claim C2: for a non-zero score that reaches rate selection the corrected
rate is `max(requested, floor)` with the floor given by the score slab
(views.py lines 159-175); every reported corrected rate is at least the
requested rate; and a score in `(0, 10]` would produce the terminal
"credit score too low" rejection with no rate or installment. -/
theorem rate_slab_correction (yearOf : ℤ → ℤ) (today : ℤ) (customer : Customer)
    (loans : List Loan) (amt rate : ℚ) (ten : ℕ) :
    ((compute_credit_score yearOf today customer loans).1 ≠ 0 →
      10 < (compute_credit_score yearOf today customer loans).1 →
      (evaluate_loan_request yearOf today customer loans amt rate ten).corrected_rate =
        some (max rate
          (if 50 < (compute_credit_score yearOf today customer loans).1 then rate
           else if 30 < (compute_credit_score yearOf today customer loans).1 then 12
           else 16))) ∧
    (∀ cr,
      (evaluate_loan_request yearOf today customer loans amt rate ten).corrected_rate =
        some cr → rate ≤ cr) ∧
    ((compute_credit_score yearOf today customer loans).1 ≠ 0 →
      (compute_credit_score yearOf today customer loans).1 ≤ 10 →
      (evaluate_loan_request yearOf today customer loans amt rate ten).approval = false ∧
      (evaluate_loan_request yearOf today customer loans amt rate ten).corrected_rate = none ∧
      (evaluate_loan_request yearOf today customer loans amt rate ten).monthly_installment = none ∧
      (evaluate_loan_request yearOf today customer loans amt rate ten).reason =
        some "credit score too low") := by
  refine ⟨?_, ?_, ?_⟩
  · intro hz h10
    simp only [evaluate_loan_request]
    rw [if_neg hz]
    by_cases h50 : 50 < (compute_credit_score yearOf today customer loans).1
    · simp [h50, rate_step_corrected_rate]
    · by_cases h30 : 30 < (compute_credit_score yearOf today customer loans).1
      · simp [h50, h30, rate_step_corrected_rate]
      · simp [h50, h30, h10, rate_step_corrected_rate]
  · intro cr hcr
    simp only [evaluate_loan_request] at hcr
    by_cases h0 : (compute_credit_score yearOf today customer loans).1 = 0
    · rw [if_pos h0] at hcr
      simp at hcr
    · rw [if_neg h0] at hcr
      by_cases h50 : 50 < (compute_credit_score yearOf today customer loans).1
      · rw [if_pos h50, rate_step_corrected_rate, Option.some.injEq] at hcr
        exact hcr ▸ le_max_left _ _
      · rw [if_neg h50] at hcr
        by_cases h30 : 30 < (compute_credit_score yearOf today customer loans).1
        · rw [if_pos h30, rate_step_corrected_rate, Option.some.injEq] at hcr
          exact hcr ▸ le_max_left _ _
        · rw [if_neg h30] at hcr
          by_cases h10 : 10 < (compute_credit_score yearOf today customer loans).1
          · rw [if_pos h10, rate_step_corrected_rate, Option.some.injEq] at hcr
            exact hcr ▸ le_max_left _ _
          · rw [if_neg h10] at hcr
            simp at hcr
  · intro hz hle
    have h50 : ¬ 50 < (compute_credit_score yearOf today customer loans).1 := by omega
    have h30 : ¬ 30 < (compute_credit_score yearOf today customer loans).1 := by omega
    have h10 : ¬ 10 < (compute_credit_score yearOf today customer loans).1 := by omega
    simp only [evaluate_loan_request]
    rw [if_neg hz, if_neg h50, if_neg h30, if_neg h10]
    exact ⟨rfl, rfl, rfl, rfl⟩

/-- Witness for C2: five exhausted (inactive) same-year loans with no
on-time EMIs and volume at the limit produce score 30, which lands in the
`(10, 30]` slab, so a request at rate 5 is corrected by the floor 16. -/
theorem rate_slab_correction_witness :
    (evaluate_loan_request (fun d => d / 365) 300 ⟨1, 100000, 100, 0⟩
        [⟨1, 1, 20, 12, 10, 2, 0, 10, 20⟩, ⟨2, 1, 20, 12, 10, 2, 0, 11, 20⟩,
         ⟨3, 1, 20, 12, 10, 2, 0, 12, 20⟩, ⟨4, 1, 20, 12, 10, 2, 0, 13, 20⟩,
         ⟨5, 1, 20, 12, 10, 2, 0, 14, 20⟩] 50 5 12).corrected_rate =
      some (max 5
        (if 50 < (compute_credit_score (fun d => d / 365) 300 ⟨1, 100000, 100, 0⟩
            [⟨1, 1, 20, 12, 10, 2, 0, 10, 20⟩, ⟨2, 1, 20, 12, 10, 2, 0, 11, 20⟩,
             ⟨3, 1, 20, 12, 10, 2, 0, 12, 20⟩, ⟨4, 1, 20, 12, 10, 2, 0, 13, 20⟩,
             ⟨5, 1, 20, 12, 10, 2, 0, 14, 20⟩]).1 then 5
         else if 30 < (compute_credit_score (fun d => d / 365) 300 ⟨1, 100000, 100, 0⟩
            [⟨1, 1, 20, 12, 10, 2, 0, 10, 20⟩, ⟨2, 1, 20, 12, 10, 2, 0, 11, 20⟩,
             ⟨3, 1, 20, 12, 10, 2, 0, 12, 20⟩, ⟨4, 1, 20, 12, 10, 2, 0, 13, 20⟩,
             ⟨5, 1, 20, 12, 10, 2, 0, 14, 20⟩]).1 then 12
         else 16)) :=
  (rate_slab_correction (fun d => d / 365) 300 ⟨1, 100000, 100, 0⟩
      [⟨1, 1, 20, 12, 10, 2, 0, 10, 20⟩, ⟨2, 1, 20, 12, 10, 2, 0, 11, 20⟩,
       ⟨3, 1, 20, 12, 10, 2, 0, 12, 20⟩, ⟨4, 1, 20, 12, 10, 2, 0, 13, 20⟩,
       ⟨5, 1, 20, 12, 10, 2, 0, 14, 20⟩] 50 5 12).1
    (by norm_num [compute_credit_score, total_active_amount, active_loans,
      total_active_emi, credit_score_core, paid_score, avg_paid_share, paid_ratios,
      loan_count_score, recent_count, recent_score, total_amount, volume_share,
      volume_score, base_score, List.cons_ne_nil])
    (by norm_num [compute_credit_score, total_active_amount, active_loans,
      total_active_emi, credit_score_core, paid_score, avg_paid_share, paid_ratios,
      loan_count_score, recent_count, recent_score, total_amount, volume_share,
      volume_score, base_score, List.cons_ne_nil])

/-- Claim C6: for a non-empty loan set passing the hard gate and containing
at least one loan with positive tenure, the repayment sub-score is 30 times
the average of the per-loan capped on-time ratios (taken over the loans with
positive tenure, views.py lines 76-84); with no loans at all the ratio
defaults to 1 and the sub-score is the full 30. -/
theorem repayment_subscore_avg (today : ℤ) (customer : Customer) (loans : List Loan) :
    (loans ≠ [] →
      ¬ total_active_amount today loans > customer.approved_limit →
      paid_ratios loans ≠ [] →
      paid_score loans =
        30 * ((paid_ratios loans).sum / ((paid_ratios loans).length : ℚ))) ∧
    (loans = [] → paid_score loans = 30) := by
  constructor
  · intro h1 _ h3
    unfold paid_score avg_paid_share
    rw [if_neg h1, if_neg h3]
    ring
  · intro h
    subst h
    norm_num [paid_score, avg_paid_share]

/-- Witness for C6: a single loan with tenure 10 and 5 on-time EMIs gives a
repayment sub-score of 30 × (1/2). -/
theorem repayment_subscore_avg_witness :
    paid_score [⟨1, 1, 100, 10, 12, 10, 5, -10, 400⟩] =
      30 * ((paid_ratios [⟨1, 1, 100, 10, 12, 10, 5, -10, 400⟩]).sum /
        ((paid_ratios [⟨1, 1, 100, 10, 12, 10, 5, -10, 400⟩]).length : ℚ)) :=
  (repayment_subscore_avg 0 ⟨1, 75000, 2700000, 0⟩
      [⟨1, 1, 100, 10, 12, 10, 5, -10, 400⟩]).1
    (by simp)
    (by norm_num [total_active_amount, active_loans])
    (by norm_num [paid_ratios])

/-- Counterexample to claim C10 as stated: for a customer with
`approved_limit = 0` (allowed — the data model only requires the limit to be
nonnegative, and registration of a zero-income customer produces it) and no
loans, the hard gate does not fire and the score is 60, not 80: the volume
ratio defaults to 1 when the limit is zero, so the volume sub-score is 0. -/
theorem no_loans_score_not_80_cex :
    ¬ total_active_amount 0 ([] : List Loan) >
        (Customer.mk 1 0 0 0).approved_limit ∧
    (compute_credit_score (fun d => d / 365) 0 ⟨1, 0, 0, 0⟩ []).1 = 60 ∧
    (compute_credit_score (fun d => d / 365) 0 ⟨1, 0, 0, 0⟩ []).1 ≠ 80 := by
  refine ⟨?_, ?_, ?_⟩ <;>
    norm_num [compute_credit_score, total_active_amount, active_loans,
      total_active_emi, credit_score_core, paid_score, avg_paid_share, paid_ratios,
      loan_count_score, recent_count, recent_score, total_amount, volume_share,
      volume_score, base_score]

/-- Claim C10 (amended): when the hard gate does not fire the score is at
least 14 with at least one loan, exactly 80 with no loans and a non-zero
approved limit, and exactly 60 with no loans and a zero approved limit; in
every case the score is never in `(0, 10]`, so the "credit score too low"
rejection of views.py lines 165-173 is unreachable for every input. -/
theorem low_score_reject_unreachable (yearOf : ℤ → ℤ) (today : ℤ)
    (customer : Customer) (loans : List Loan) (amt rate : ℚ) (ten : ℕ) :
    (¬ total_active_amount today loans > customer.approved_limit →
      (loans ≠ [] → 14 ≤ (compute_credit_score yearOf today customer loans).1) ∧
      (loans = [] → customer.approved_limit = 0 →
        (compute_credit_score yearOf today customer loans).1 = 60) ∧
      (loans = [] → customer.approved_limit ≠ 0 →
        (compute_credit_score yearOf today customer loans).1 = 80) ∧
      ¬(0 < (compute_credit_score yearOf today customer loans).1 ∧
        (compute_credit_score yearOf today customer loans).1 ≤ 10)) ∧
    (evaluate_loan_request yearOf today customer loans amt rate ten).reason ≠
      some "credit score too low" := by
  constructor
  · intro hg
    refine ⟨?_, ?_, ?_, ?_⟩
    · intro _
      simp only [compute_credit_score, if_neg hg]
      exact le_floor_clamp _ 14
        (by exact_mod_cast credit_score_core_ge_14 yearOf today customer loans)
        (by norm_num)
    · intro h hl
      subst h
      norm_num [compute_credit_score, total_active_amount, active_loans,
        total_active_emi, credit_score_core, paid_score, avg_paid_share,
        paid_ratios, loan_count_score, recent_count, recent_score, total_amount,
        volume_share, volume_score, base_score, hl]
    · intro h hl
      subst h
      have hg' : ¬ customer.approved_limit < 0 := by
        simpa [total_active_amount, active_loans] using hg
      norm_num [compute_credit_score, total_active_amount, active_loans,
        total_active_emi, credit_score_core, paid_score, avg_paid_share,
        paid_ratios, loan_count_score, recent_count, recent_score, total_amount,
        volume_share, volume_score, base_score, hl, hg']
    · rcases score_zero_or_ge_14 yearOf today customer loans with h | h <;> omega
  · rcases score_zero_or_ge_14 yearOf today customer loans with h0 | h14
    · simp only [evaluate_loan_request]
      rw [if_pos h0]
      simp
    · have h0 : (compute_credit_score yearOf today customer loans).1 ≠ 0 := by omega
      have h10 : 10 < (compute_credit_score yearOf today customer loans).1 := by omega
      simp only [evaluate_loan_request]
      rw [if_neg h0]
      by_cases h50 : 50 < (compute_credit_score yearOf today customer loans).1
      · rw [if_pos h50]
        rcases rate_step_reason_cases customer
            (compute_credit_score yearOf today customer loans).2.2 amt rate ten rate
          with h | h <;> rw [h] <;> simp
      · rw [if_neg h50]
        by_cases h30 : 30 < (compute_credit_score yearOf today customer loans).1
        · rw [if_pos h30]
          rcases rate_step_reason_cases customer
              (compute_credit_score yearOf today customer loans).2.2 amt rate ten 12
            with h | h <;> rw [h] <;> simp
        · rw [if_neg h30, if_pos h10]
          rcases rate_step_reason_cases customer
              (compute_credit_score yearOf today customer loans).2.2 amt rate ten 16
            with h | h <;> rw [h] <;> simp

/-- Witness for the amended C10 at a no-loan customer with non-zero limit:
the gate passes and the score is exactly 80. -/
theorem low_score_reject_unreachable_witness :
    (compute_credit_score (fun d => d / 365) 0 ⟨1, 75000, 2700000, 0⟩ []).1 = 80 :=
  (((low_score_reject_unreachable (fun d => d / 365) 0 ⟨1, 75000, 2700000, 0⟩ []
      300000 12 24).1
    (by norm_num [total_active_amount, active_loans])).2.2.1 rfl (by norm_num))

/-- Counterexample to claim C4 as stated: a customer with zero salary and
zero limit requesting 100 at rate 0 over 1 month reaches the affordability
rejection with corrected rate 0 and installment 100, yet the eligibility
response reports `corrected_interest_rate = None` — the view's Python
truthiness test (`float(x) if x else None`, views.py line 125) swallows the
Decimal zero, so the corrected rate is not present in the caller's
response. -/
theorem emi_reject_zero_rate_response_cex :
    (evaluate_loan_request (fun d => d / 365) 0 ⟨1, 0, 0, 0⟩ [] 100 0 1).reason =
      some "emi exceeds 50% of monthly salary" ∧
    (evaluate_loan_request (fun d => d / 365) 0 ⟨1, 0, 0, 0⟩ [] 100 0 1).corrected_rate =
      some 0 ∧
    (evaluate_loan_request (fun d => d / 365) 0 ⟨1, 0, 0, 0⟩ [] 100 0 1).monthly_installment =
      some 100 ∧
    (check_eligibility_response (fun d => d / 365) 0 ⟨1, 0, 0, 0⟩ [] 100 0 1).corrected_interest_rate =
      none := by
  refine ⟨?_, ?_, ?_, ?_⟩ <;>
    norm_num [check_eligibility_response, evaluate_loan_request, rate_step,
      compute_emi, quantize2, roundHalfEven, truthyQ, compute_credit_score,
      total_active_amount, active_loans, total_active_emi, credit_score_core,
      paid_score, avg_paid_share, paid_ratios, loan_count_score, recent_count,
      recent_score, total_amount, volume_share, volume_score, base_score]

/-- Claim C4 (amended): when rate selection is passed and the active EMI
total plus the new installment strictly exceeds half the monthly salary,
the decision is a terminal rejection carrying the corrected rate and the
installment; the eligibility response reports these through Python
truthiness, i.e. verbatim unless the value equals 0, in which case it
reports null. -/
theorem emi_affordability_reject (yearOf : ℤ → ℤ) (today : ℤ)
    (customer : Customer) (loans : List Loan) (amt rate : ℚ) (ten : ℕ)
    (hz : (compute_credit_score yearOf today customer loans).1 ≠ 0)
    (h10 : 10 < (compute_credit_score yearOf today customer loans).1)
    (hemi : (compute_credit_score yearOf today customer loans).2.2 +
        compute_emi amt
          (max rate
            (if 50 < (compute_credit_score yearOf today customer loans).1 then rate
             else if 30 < (compute_credit_score yearOf today customer loans).1 then 12
             else 16)) ten >
      customer.monthly_salary * (1 / 2)) :
    (evaluate_loan_request yearOf today customer loans amt rate ten).approval = false ∧
    (evaluate_loan_request yearOf today customer loans amt rate ten).reason =
      some "emi exceeds 50% of monthly salary" ∧
    (evaluate_loan_request yearOf today customer loans amt rate ten).corrected_rate =
      some (max rate
        (if 50 < (compute_credit_score yearOf today customer loans).1 then rate
         else if 30 < (compute_credit_score yearOf today customer loans).1 then 12
         else 16)) ∧
    (evaluate_loan_request yearOf today customer loans amt rate ten).monthly_installment =
      some (compute_emi amt
        (max rate
          (if 50 < (compute_credit_score yearOf today customer loans).1 then rate
           else if 30 < (compute_credit_score yearOf today customer loans).1 then 12
           else 16)) ten) ∧
    (check_eligibility_response yearOf today customer loans amt rate ten).corrected_interest_rate =
      truthyQ (some (max rate
        (if 50 < (compute_credit_score yearOf today customer loans).1 then rate
         else if 30 < (compute_credit_score yearOf today customer loans).1 then 12
         else 16))) ∧
    (check_eligibility_response yearOf today customer loans amt rate ten).monthly_installment =
      truthyQ (some (compute_emi amt
        (max rate
          (if 50 < (compute_credit_score yearOf today customer loans).1 then rate
           else if 30 < (compute_credit_score yearOf today customer loans).1 then 12
           else 16)) ten)) := by
  have key : evaluate_loan_request yearOf today customer loans amt rate ten =
      rate_step customer (compute_credit_score yearOf today customer loans).2.2
        amt rate ten
        (if 50 < (compute_credit_score yearOf today customer loans).1 then rate
         else if 30 < (compute_credit_score yearOf today customer loans).1 then 12
         else 16) := by
    simp only [evaluate_loan_request]
    rw [if_neg hz]
    by_cases h50 : 50 < (compute_credit_score yearOf today customer loans).1
    · rw [if_pos h50, if_pos h50]
    · rw [if_neg h50, if_neg h50]
      by_cases h30 : 30 < (compute_credit_score yearOf today customer loans).1
      · rw [if_pos h30, if_pos h30]
      · rw [if_neg h30, if_neg h30, if_pos h10]
  have hev : evaluate_loan_request yearOf today customer loans amt rate ten =
      { approval := false, requested_rate := rate,
        corrected_rate := some (max rate
          (if 50 < (compute_credit_score yearOf today customer loans).1 then rate
           else if 30 < (compute_credit_score yearOf today customer loans).1 then 12
           else 16)),
        tenure := ten,
        monthly_installment := some (compute_emi amt
          (max rate
            (if 50 < (compute_credit_score yearOf today customer loans).1 then rate
             else if 30 < (compute_credit_score yearOf today customer loans).1 then 12
             else 16)) ten),
        reason := some "emi exceeds 50% of monthly salary" } := by
    rw [key]
    simp only [rate_step]
    rw [if_pos hemi]
  refine ⟨by rw [hev], by rw [hev], by rw [hev], by rw [hev], ?_, ?_⟩
  · simp only [check_eligibility_response, hev]
    rfl
  · simp only [check_eligibility_response, hev]
    rfl

/-- Witness for the amended C4 at the concrete zero-salary input: the
decision rejects with the rate and installment populated, and the response
renders them through the truthiness filter. -/
theorem emi_affordability_reject_witness :
    (evaluate_loan_request (fun d => d / 365) 0 ⟨1, 0, 0, 0⟩ [] 100 0 1).approval = false ∧
    (evaluate_loan_request (fun d => d / 365) 0 ⟨1, 0, 0, 0⟩ [] 100 0 1).reason =
      some "emi exceeds 50% of monthly salary" ∧
    (evaluate_loan_request (fun d => d / 365) 0 ⟨1, 0, 0, 0⟩ [] 100 0 1).corrected_rate =
      some (max 0
        (if 50 < (compute_credit_score (fun d => d / 365) 0 ⟨1, 0, 0, 0⟩ []).1 then 0
         else if 30 < (compute_credit_score (fun d => d / 365) 0 ⟨1, 0, 0, 0⟩ []).1 then 12
         else 16)) ∧
    (evaluate_loan_request (fun d => d / 365) 0 ⟨1, 0, 0, 0⟩ [] 100 0 1).monthly_installment =
      some (compute_emi 100
        (max 0
          (if 50 < (compute_credit_score (fun d => d / 365) 0 ⟨1, 0, 0, 0⟩ []).1 then 0
           else if 30 < (compute_credit_score (fun d => d / 365) 0 ⟨1, 0, 0, 0⟩ []).1 then 12
           else 16)) 1) ∧
    (check_eligibility_response (fun d => d / 365) 0 ⟨1, 0, 0, 0⟩ [] 100 0 1).corrected_interest_rate =
      truthyQ (some (max 0
        (if 50 < (compute_credit_score (fun d => d / 365) 0 ⟨1, 0, 0, 0⟩ []).1 then 0
         else if 30 < (compute_credit_score (fun d => d / 365) 0 ⟨1, 0, 0, 0⟩ []).1 then 12
         else 16))) ∧
    (check_eligibility_response (fun d => d / 365) 0 ⟨1, 0, 0, 0⟩ [] 100 0 1).monthly_installment =
      truthyQ (some (compute_emi 100
        (max 0
          (if 50 < (compute_credit_score (fun d => d / 365) 0 ⟨1, 0, 0, 0⟩ []).1 then 0
           else if 30 < (compute_credit_score (fun d => d / 365) 0 ⟨1, 0, 0, 0⟩ []).1 then 12
           else 16)) 1)) :=
  emi_affordability_reject (fun d => d / 365) 0 ⟨1, 0, 0, 0⟩ [] 100 0 1
    (by norm_num [compute_credit_score, total_active_amount, active_loans,
      total_active_emi, credit_score_core, paid_score, avg_paid_share, paid_ratios,
      loan_count_score, recent_count, recent_score, total_amount, volume_share,
      volume_score, base_score])
    (by norm_num [compute_credit_score, total_active_amount, active_loans,
      total_active_emi, credit_score_core, paid_score, avg_paid_share, paid_ratios,
      loan_count_score, recent_count, recent_score, total_amount, volume_share,
      volume_score, base_score])
    (by norm_num [compute_credit_score, total_active_amount, active_loans,
      total_active_emi, credit_score_core, paid_score, avg_paid_share, paid_ratios,
      loan_count_score, recent_count, recent_score, total_amount, volume_share,
      volume_score, base_score, compute_emi, quantize2, roundHalfEven])

/-- Counterexample to claim C8 as stated: a request with a negative loan
amount (−100) passes `CheckEligibilityRequestSerializer` validation
unchanged, because `loan_amount` and `interest_rate` are `DecimalField`s
with no `min_value` (serializers.py lines 22-23); only `customer_id` and
`tenure` carry `min_value=1`.  The engine is therefore reachable with a
negative amount. -/
theorem negative_amount_passes_validation_cex :
    check_eligibility_request_valid ⟨1, -100, 10, 1⟩ = true ∧ ((-100 : ℚ) < 0) := by
  constructor
  · norm_num [check_eligibility_request_valid, decimal_field_ok]
  · norm_num

/-- Claim C8 (amended): validation rejects non-positive tenure (and
non-positive customer ids) before the engine runs, but places no lower
bound on `loan_amount` or `interest_rate`, so negative amounts reach the
engine. -/
theorem validation_bounds (r : EligibilityRequest)
    (h : check_eligibility_request_valid r = true) :
    1 ≤ r.tenure ∧ 1 ≤ r.customer_id := by
  simp only [check_eligibility_request_valid, Bool.and_eq_true,
    decide_eq_true_eq] at h
  exact ⟨h.2, h.1.1.1⟩

/-- Witness for the amended C8 at a well-formed request. -/
theorem validation_bounds_witness :
    check_eligibility_request_valid ⟨1, 300000, 12, 24⟩ = true ∧
      (1 ≤ (⟨1, 300000, 12, 24⟩ : EligibilityRequest).tenure ∧
       1 ≤ (⟨1, 300000, 12, 24⟩ : EligibilityRequest).customer_id) :=
  ⟨by norm_num [check_eligibility_request_valid, decimal_field_ok],
   validation_bounds ⟨1, 300000, 12, 24⟩
     (by norm_num [check_eligibility_request_valid, decimal_field_ok])⟩

/-! ### Helper lemmas for loan issuance -/

theorem approval_rate_installment (yearOf : ℤ → ℤ) (today : ℤ)
    (customer : Customer) (loans : List Loan) (amt rate : ℚ) (ten : ℕ)
    (h : (evaluate_loan_request yearOf today customer loans amt rate ten).approval = true) :
    ∃ cr mi,
      (evaluate_loan_request yearOf today customer loans amt rate ten).corrected_rate =
        some cr ∧
      (evaluate_loan_request yearOf today customer loans amt rate ten).monthly_installment =
        some mi := by
  simp only [evaluate_loan_request] at h ⊢
  split_ifs at h ⊢ with h0 h50 h30 h10
  all_goals
    exact ⟨_, _, rate_step_corrected_rate _ _ _ _ _ _, rate_step_installment _ _ _ _ _ _⟩

theorem le_foldr_max_of_mem (xs : List ℕ) : ∀ x ∈ xs, x ≤ xs.foldr max 0 := by
  induction xs with
  | nil => intro x hx; cases hx
  | cons a t ih =>
    intro x hx
    rcases List.mem_cons.mp hx with h | h
    · subst h; exact le_max_left _ _
    · exact le_trans (ih x h) (le_max_right _ _)

theorem foldr_max_mem (xs : List ℕ) (h : xs ≠ []) : xs.foldr max 0 ∈ xs := by
  induction xs with
  | nil => exact absurd rfl h
  | cons a t ih =>
    by_cases ht : t = []
    · subst ht
      simp [Nat.max_zero]
    · have hmem := ih ht
      simp only [List.foldr_cons]
      rcases max_choice a (t.foldr max 0) with hm | hm
      · rw [hm]; exact List.mem_cons_self _ _
      · rw [hm]; exact List.mem_cons_of_mem _ hmem

theorem find?_customer_map (l : List Customer) (cid : ℕ) (g : Customer → Customer)
    (hg : ∀ c, (g c).customer_id = c.customer_id) :
    (l.map g).find? (fun c => decide (c.customer_id = cid)) =
      (l.find? (fun c => decide (c.customer_id = cid))).map g := by
  induction l with
  | nil => rfl
  | cons a t ih =>
    simp only [List.map_cons, List.find?_cons, hg a]
    cases hd : decide (a.customer_id = cid)
    · simpa using ih
    · simp

/-- Claim C3: on an approved create-loan request the issuance transaction
(views.py lines 230-247) appends exactly one loan row carrying the next
loan id (`max(existing ids) + 1`, or 1 when no loans exist), start date
today, end date `today + tenure × 30` days, zero EMIs paid on time, and the
decision's corrected rate and installment; and the customer's
`current_debt` grows by exactly the requested amount.  In this embedding
the issuance is a single state transition, matching the `transaction.atomic`
block: either all of these effects happen or (on rejection) none. -/
theorem loan_issuance_effects (yearOf : ℤ → ℤ) (today : ℤ) (db : DB) (cid : ℕ)
    (amt rate : ℚ) (ten : ℕ) (cust : Customer)
    (hfind : find_customer db cid = some cust)
    (happ : (evaluate_loan_request yearOf today cust (customer_loans db cust.customer_id)
      amt rate ten).approval = true) :
    ∃ cr mi,
      (evaluate_loan_request yearOf today cust (customer_loans db cust.customer_id)
        amt rate ten).corrected_rate = some cr ∧
      (evaluate_loan_request yearOf today cust (customer_loans db cust.customer_id)
        amt rate ten).monthly_installment = some mi ∧
      (create_loan yearOf today db cid amt rate ten).1.loan_id =
        some (next_loan_id db.loans) ∧
      (create_loan yearOf today db cid amt rate ten).1.loan_approved = true ∧
      (create_loan yearOf today db cid amt rate ten).2.loans =
        db.loans ++ [(⟨next_loan_id db.loans, cust.customer_id, amt, ten, cr, mi, 0,
          today, today + (ten : ℤ) * 30⟩ : Loan)] ∧
      find_customer (create_loan yearOf today db cid amt rate ten).2 cid =
        some { cust with current_debt := cust.current_debt + amt } ∧
      (db.loans = [] → next_loan_id db.loans = 1) ∧
      (∀ l ∈ db.loans, l.loan_id < next_loan_id db.loans) ∧
      (db.loans ≠ [] → ∃ l, l ∈ db.loans ∧ next_loan_id db.loans = l.loan_id + 1) := by
  obtain ⟨cr, mi, hcr, hmi⟩ :=
    approval_rate_installment yearOf today cust (customer_loans db cust.customer_id)
      amt rate ten happ
  have hcid : cust.customer_id = cid := by
    have := List.find?_some hfind
    simpa using this
  have hcl : create_loan yearOf today db cid amt rate ten =
      ({ loan_id := some (next_loan_id db.loans), customer_id := cust.customer_id,
         loan_approved := true, message := "Loan approved",
         monthly_installment := some mi },
       { customers := db.customers.map (fun c =>
           if c.customer_id = cust.customer_id then
             { c with current_debt := c.current_debt + amt }
           else c),
         loans := db.loans ++ [(⟨next_loan_id db.loans, cust.customer_id, amt, ten,
           cr, mi, 0, today, today + (ten : ℤ) * 30⟩ : Loan)] }) := by
    simp only [create_loan, hfind, happ, hcr, hmi, Option.getD_some, if_true]
  refine ⟨cr, mi, hcr, hmi, ?_, ?_, ?_, ?_, ?_, ?_, ?_⟩
  · rw [hcl]
  · rw [hcl]
  · rw [hcl]
  · rw [hcl]
    show ({ customers := _, loans := _ } : DB).customers.find? _ = _
    simp only
    rw [find?_customer_map db.customers cid
      (fun c => if c.customer_id = cust.customer_id then
        { c with current_debt := c.current_debt + amt } else c)
      (by intro c; dsimp only; split_ifs <;> rfl)]
    rw [show db.customers.find? (fun c => decide (c.customer_id = cid)) = some cust from hfind]
    simp
  · intro h
    simp [next_loan_id, h]
  · intro l hl
    have hne : db.loans ≠ [] := List.ne_nil_of_mem hl
    have hle := le_foldr_max_of_mem (db.loans.map (fun l => l.loan_id)) l.loan_id
      (List.mem_map_of_mem _ hl)
    simp only [next_loan_id, if_neg hne]
    omega
  · intro h
    have hmem := foldr_max_mem (db.loans.map (fun l => l.loan_id))
      (by simpa using h)
    rcases List.mem_map.mp hmem with ⟨l, hl, hid2⟩
    refine ⟨l, hl, ?_⟩
    simp only [next_loan_id, if_neg h]
    omega

/-- Witness for C3: scenario of the spec — a fresh registered customer, one
approved request for 1200 at rate 0 over 12 months; the first loan id is 1
and the debt grows from 0 to 1200. -/
theorem loan_issuance_effects_witness :
    ∃ cr mi,
      (evaluate_loan_request (fun d => d / 365) 0 ⟨1, 75000, 2700000, 0⟩
        (customer_loans ⟨[⟨1, 75000, 2700000, 0⟩], []⟩ 1) 1200 0 12).corrected_rate =
        some cr ∧
      (evaluate_loan_request (fun d => d / 365) 0 ⟨1, 75000, 2700000, 0⟩
        (customer_loans ⟨[⟨1, 75000, 2700000, 0⟩], []⟩ 1) 1200 0 12).monthly_installment =
        some mi ∧
      (create_loan (fun d => d / 365) 0 ⟨[⟨1, 75000, 2700000, 0⟩], []⟩ 1
        1200 0 12).1.loan_id = some (next_loan_id ([] : List Loan)) ∧
      (create_loan (fun d => d / 365) 0 ⟨[⟨1, 75000, 2700000, 0⟩], []⟩ 1
        1200 0 12).1.loan_approved = true ∧
      (create_loan (fun d => d / 365) 0 ⟨[⟨1, 75000, 2700000, 0⟩], []⟩ 1
        1200 0 12).2.loans =
        ([] : List Loan) ++ [(⟨next_loan_id ([] : List Loan), 1, 1200, 12, cr, mi, 0,
          0, 0 + ((12 : ℕ) : ℤ) * 30⟩ : Loan)] ∧
      find_customer (create_loan (fun d => d / 365) 0 ⟨[⟨1, 75000, 2700000, 0⟩], []⟩ 1
        1200 0 12).2 1 = some ⟨1, 75000, 2700000, 0 + 1200⟩ ∧
      (([] : List Loan) = [] → next_loan_id ([] : List Loan) = 1) ∧
      (∀ l ∈ ([] : List Loan), l.loan_id < next_loan_id ([] : List Loan)) ∧
      (([] : List Loan) ≠ [] → ∃ l, l ∈ ([] : List Loan) ∧
        next_loan_id ([] : List Loan) = l.loan_id + 1) :=
  loan_issuance_effects (fun d => d / 365) 0 ⟨[⟨1, 75000, 2700000, 0⟩], []⟩ 1
    1200 0 12 ⟨1, 75000, 2700000, 0⟩ rfl
    (by norm_num [customer_loans, evaluate_loan_request, rate_step, compute_emi,
      quantize2, roundHalfEven, compute_credit_score, total_active_amount,
      active_loans, total_active_emi, credit_score_core, paid_score,
      avg_paid_share, paid_ratios, loan_count_score, recent_count, recent_score,
      total_amount, volume_share, volume_score, base_score])
